import Mathlib

/-!
Verification of `samples/ftrace/ftrace-ops.c`, a Linux kernel sample module
that benchmarks ftrace overhead.  The module's pure logic (parameter
handling, flag computation, op allocation/registration, the timing loop, the
count check, and the init return path) is shallowly embedded below; the host
kernel facilities the module calls into (ftrace dispatch, ktime, div_u64,
errno constants) are not under `src/` and are modelled from the spec where a
claim depends on them.
-/

namespace FtraceOpsSample

/-- Which tracee function an op is filtered on: `tracee_relevant` or
`tracee_irrelevant` in the C source. -/
inductive Tracee
  | relevant
  | irrelevant
deriving DecidableEq

/-- The tracer callback installed in an op: `ops_func_nop` or
`ops_func_count` in the C source. -/
inductive FtraceFunc
  | ops_func_nop
  | ops_func_count
deriving DecidableEq

/-- The module parameters (`module_param` declarations in the C source).
The `unsigned int` parameters are modelled as `Nat` (their values fit in
32 bits, which only matters where arithmetic can wrap). -/
structure Params where
  nr_function_calls : Nat
  nr_ops_relevant : Nat
  nr_ops_irrelevant : Nat
  save_regs : Bool
  assist_recursion : Bool
  assist_rcu : Bool
  check_count : Bool
  persist : Bool
deriving DecidableEq

/-- Modelled from the spec: the `FTRACE_OPS_FL_SAVE_REGS` flag constant from
`<linux/ftrace.h>` (not under `src/`) is a single bit of the `flags` word. -/
def FTRACE_OPS_FL_SAVE_REGS : Nat := 2 ^ 2

/-- Modelled from the spec: the `FTRACE_OPS_FL_RECURSION` flag constant from
`<linux/ftrace.h>` (not under `src/`) is a single bit of the `flags` word. -/
def FTRACE_OPS_FL_RECURSION : Nat := 2 ^ 4

/-- Modelled from the spec: the `FTRACE_OPS_FL_RCU` flag constant from
`<linux/ftrace.h>` (not under `src/`) is a single bit of the `flags` word. -/
def FTRACE_OPS_FL_RCU : Nat := 2 ^ 14

/-- The predicate that a flag bit is set in a flags word. -/
def flag_set (flags flag : Nat) : Prop := flags &&& flag ≠ 0

instance (flags flag : Nat) : Decidable (flag_set flags flag) := by
  unfold flag_set
  infer_instance

/-- One `struct sample_ops`: an `ftrace_ops` (its callback `func`, its
`flags` word, and the filter installed with `ftrace_set_filter_ip`) together
with the `count` field. -/
structure SampleOps where
  func : FtraceFunc
  flags : Nat
  filter : Tracee
  count : Nat
deriving DecidableEq

/-- Effect of one invocation of a tracer callback on its own `sample_ops`:
`ops_func_nop` does nothing; `ops_func_count` performs `self->count++` on an
`unsigned int`, hence modulo `2 ^ 32`. -/
def ftrace_func_apply : FtraceFunc → SampleOps → SampleOps
  | FtraceFunc.ops_func_nop, o => o
  | FtraceFunc.ops_func_count, o => ⟨o.func, o.flags, o.filter, (o.count + 1) % 2 ^ 32⟩

/-- Modelled from the spec: the host kernel's ftrace core (not under `src/`)
invokes the callback of every registered op whose installed filter matches
the function being called. -/
def call_tracee (t : Tracee) (ops : List SampleOps) : List SampleOps :=
  ops.map fun o => if o.filter = t then ftrace_func_apply o.func o else o

/-- The timing loop of `ftrace_ops_sample_init`:
`for (i = 0; i < nr_function_calls; i++) tracee_relevant();`, acting on a
list of registered ops. -/
def run_calls : Nat → List SampleOps → List SampleOps
  | 0, ops => ops
  | n + 1, ops => run_calls n (call_tracee Tracee.relevant ops)

/-- Observable events of the timed section of `ftrace_ops_sample_init`:
either a `ktime_get()` sample or a call to one of the tracee functions. -/
inductive Event
  | stamp (t : Int)
  | call (t : Tracee)
deriving DecidableEq

/-- The call events emitted by the timing loop, in program order. -/
def loop_trace : Nat → List Event
  | 0 => []
  | n + 1 => loop_trace n ++ [Event.call Tracee.relevant]

/-- The event trace of the timed section: `start = ktime_get();`, then the
loop, then `end = ktime_get();`. -/
def timed_trace (n : Nat) (tstart tstop : Int) : List Event :=
  Event.stamp tstart :: (loop_trace n ++ [Event.stamp tstop])

/-- Modelled from the spec: signed 64-bit wrap-around, for the `s64`
(`ktime_t`) arithmetic of `<linux/ktime.h>` (not under `src/`). -/
def wrap_s64 (x : Int) : Int := (x + 2 ^ 63) % 2 ^ 64 - 2 ^ 63

/-- Modelled from the spec: `ktime_sub` (not under `src/`) subtracts two
`ktime_t` values with `s64` arithmetic. -/
def ktime_sub (a b : Int) : Int := wrap_s64 (a - b)

/-- Modelled from the spec: `ktime_to_ns` (not under `src/`); a `ktime_t` is
already a count of nanoseconds. -/
def ktime_to_ns (x : Int) : Int := x

/-- Reinterpretation of an `s64` value as the `u64` local `period`. -/
def u64_of_s64 (x : Int) : Nat := (x % 2 ^ 64).toNat

/-- The statement `period = ktime_to_ns(ktime_sub(end, start));`. -/
def period (tstart tstop : Int) : Nat :=
  u64_of_s64 (ktime_to_ns (ktime_sub tstop tstart))

/-- Modelled from the spec: `div_u64` from `<linux/math64.h>` (not under
`src/`) performs unsigned 64-bit integer division; C integer division by
zero is undefined, so a zero divisor yields no result. -/
def div_u64 (dividend divisor : Nat) : Option Nat :=
  if divisor = 0 then none else some (dividend / divisor)

/-- Modelled from the spec: the `EINVAL` errno constant of the kernel's
errno headers (not under `src/`). -/
def EINVAL : Int := 22

/-- Result of a call to `ops_alloc_init`: the returned pointer (`none` for
NULL, when `kcalloc` fails) and the ops registered with
`register_ftrace_function` during the call. -/
structure AllocResult where
  ret : Option (List SampleOps)
  registered : List SampleOps
deriving DecidableEq

/-- The function `ops_alloc_init`: allocate `nr` zeroed `sample_ops`; on
allocation failure return NULL having set no filter and registered nothing;
otherwise set each op's `func` and `flags`, install the filter on `tracee`,
and register it (every element is set up identically, and `kcalloc` zeroes
`count`). -/
def ops_alloc_init (tracee : Tracee) (func : FtraceFunc) (flags : Nat)
    (nr : Nat) (alloc_ok : Bool) : AllocResult :=
  if alloc_ok then
    ⟨some (List.replicate nr ⟨func, flags, tracee, 0⟩),
      List.replicate nr ⟨func, flags, tracee, 0⟩⟩
  else
    ⟨none, []⟩

/-- The function `ops_destroy`: given the pointer from `ops_alloc_init`,
unregister and free the first `nr` ops; a NULL pointer is a no-op.  The
value returned is the list of ops that were unregistered and freed. -/
def ops_destroy : Option (List SampleOps) → Nat → List SampleOps
  | none, _ => []
  | some l, nr => l.take nr

/-- The ops of one array that remain registered after `ops_destroy` has run
on it (the first `nr` are unregistered). -/
def remaining_after_destroy : Option (List SampleOps) → Nat → List SampleOps
  | none, _ => []
  | some l, nr => l.drop nr

/-- The function `ops_check`: when the pointer is non-NULL and `check_count`
is set, iterate `i = 0 .. nr-1` but, as the C source does, read
`ops->count` (the count of element 0) on every iteration, emitting a warning
line `(got, expected)` whenever it differs from `expected_count`. -/
def ops_check (check_count : Bool) (ops : Option (List SampleOps)) (nr : Nat)
    (expected_count : Nat) : List (Nat × Nat) :=
  match ops with
  | none => []
  | some l =>
    if check_count then
      (List.range nr).filterMap fun _ =>
        match l.head? with
        | none => none
        | some o =>
          if o.count = expected_count then none else some (o.count, expected_count)
    else []

/-- The static `tracer_relevant`, initialised to `ops_func_nop` and set to
`ops_func_count` by init when `check_count` is set. -/
def tracer_relevant (p : Params) : FtraceFunc :=
  if p.check_count then FtraceFunc.ops_func_count else FtraceFunc.ops_func_nop

/-- The static `tracer_irrelevant`, initialised to `ops_func_nop` and set to
`ops_func_count` by init when `check_count` is set. -/
def tracer_irrelevant (p : Params) : FtraceFunc :=
  if p.check_count then FtraceFunc.ops_func_count else FtraceFunc.ops_func_nop

/-- Environment of one run of `ftrace_ops_sample_init`: the kernel config
option consulted, the outcomes of the two `kcalloc` allocations, and the two
`ktime_get()` readings. -/
structure Env where
  cfg_dynamic_ftrace_with_regs : Bool
  alloc_relevant_ok : Bool
  alloc_irrelevant_ok : Bool
  time_start : Int
  time_stop : Int
deriving DecidableEq

/-- The value of the `save_regs` parameter after the initial config check in
`ftrace_ops_sample_init` (it is forced to `false` when the kernel lacks
`CONFIG_DYNAMIC_FTRACE_WITH_REGS`). -/
def save_regs_final (p : Params) (e : Env) : Bool :=
  if !e.cfg_dynamic_ftrace_with_regs && p.save_regs then false else p.save_regs

/-- The `flags` word built at the top of `ftrace_ops_sample_init`. -/
def init_flags (p : Params) (e : Env) : Nat :=
  let f1 : Nat :=
    if !e.cfg_dynamic_ftrace_with_regs && p.save_regs then 0
    else if p.save_regs then 0 ||| FTRACE_OPS_FL_SAVE_REGS
    else 0
  let f2 : Nat := if p.assist_recursion then f1 ||| FTRACE_OPS_FL_RECURSION else f1
  if p.assist_rcu then f2 ||| FTRACE_OPS_FL_RCU else f2

/-- The call `ops_alloc_init(tracee_relevant, tracer_relevant, flags,
nr_ops_relevant)` made by init. -/
def ops_relevant_init (p : Params) (e : Env) : AllocResult :=
  ops_alloc_init Tracee.relevant (tracer_relevant p) (init_flags p e)
    p.nr_ops_relevant e.alloc_relevant_ok

/-- The call `ops_alloc_init(tracee_irrelevant, tracer_irrelevant, flags,
nr_ops_irrelevant)` made by init. -/
def ops_irrelevant_init (p : Params) (e : Env) : AllocResult :=
  ops_alloc_init Tracee.irrelevant (tracer_irrelevant p) (init_flags p e)
    p.nr_ops_irrelevant e.alloc_irrelevant_ok

/-- The relevant ops array after the timing loop has run. -/
def ops_relevant_post (p : Params) (e : Env) : Option (List SampleOps) :=
  ((ops_relevant_init p e).ret).map (run_calls p.nr_function_calls)

/-- The irrelevant ops array after the timing loop has run. -/
def ops_irrelevant_post (p : Params) (e : Env) : Option (List SampleOps) :=
  ((ops_irrelevant_init p e).ret).map (run_calls p.nr_function_calls)

/-- Everything `ftrace_ops_sample_init` computes and leaves behind: the two
allocation results, the event trace of the timed section, the post-loop
arrays, the warning lines of the two `ops_check` calls, the measured period,
the per-call quotient printed by the final `pr_info`, the return value, and
the ops still registered when init returns. -/
structure InitResult where
  ops_relevant : AllocResult
  ops_irrelevant : AllocResult
  trace : List Event
  ops_relevant_after : Option (List SampleOps)
  ops_irrelevant_after : Option (List SampleOps)
  warnings_relevant : List (Nat × Nat)
  warnings_irrelevant : List (Nat × Nat)
  period : Nat
  per_call : Option Nat
  retval : Int
  registered_after : List SampleOps
deriving DecidableEq

/-- The function `ftrace_ops_sample_init`, assembled from the pieces above
in source order: compute flags, allocate and register both arrays, run the
timed loop, check both arrays (the irrelevant one against an expected count
of 0), compute the period and per-call quotient, then either return 0
keeping everything registered (`persist`) or destroy both arrays and return
`-EINVAL`. -/
def ftrace_ops_sample_init (p : Params) (e : Env) : InitResult :=
  ⟨ops_relevant_init p e,
   ops_irrelevant_init p e,
   timed_trace p.nr_function_calls e.time_start e.time_stop,
   ops_relevant_post p e,
   ops_irrelevant_post p e,
   ops_check p.check_count (ops_relevant_post p e) p.nr_ops_relevant p.nr_function_calls,
   ops_check p.check_count (ops_irrelevant_post p e) p.nr_ops_irrelevant 0,
   period e.time_start e.time_stop,
   div_u64 (period e.time_start e.time_stop) p.nr_function_calls,
   if p.persist then 0 else -EINVAL,
   if p.persist then
     (ops_relevant_post p e).getD [] ++ (ops_irrelevant_post p e).getD []
   else
     remaining_after_destroy (ops_relevant_post p e) p.nr_ops_relevant ++
       remaining_after_destroy (ops_irrelevant_post p e) p.nr_ops_irrelevant⟩

/-- The module state a tracee body could touch: the two static pointers and
the parameters. -/
structure ModuleState where
  params : Params
  ops_relevant : Option (List SampleOps)
  ops_irrelevant : Option (List SampleOps)
deriving DecidableEq

/-- Body of `tracee_relevant`: it is just `barrier();`, a compiler fence
that reads and writes no module state. -/
def tracee_relevant_body (s : ModuleState) : ModuleState := s

/-- Iterated application of a state transformer, for calling a function `n`
times in a row. -/
def iterate_calls : Nat → (ModuleState → ModuleState) → ModuleState → ModuleState
  | 0, _, s => s
  | n + 1, f, s => iterate_calls n f (f s)

/-! ## Helper lemmas -/

/-- The timing loop emits exactly `n` call events, all to `tracee_relevant`. -/
theorem loop_trace_eq (n : Nat) :
    loop_trace n = List.replicate n (Event.call Tracee.relevant) := by
  induction n with
  | zero => rfl
  | succ n ih => rw [loop_trace, ih, ← List.replicate_succ']

/-- Dispatching one call of a tracee preserves the number of registered ops. -/
theorem call_tracee_length (t : Tracee) (ops : List SampleOps) :
    (call_tracee t ops).length = ops.length := by
  simp [call_tracee]

/-- The timing loop preserves the number of registered ops. -/
theorem run_calls_length (n : Nat) (ops : List SampleOps) :
    (run_calls n ops).length = ops.length := by
  induction n generalizing ops with
  | zero => rfl
  | succ n ih => rw [run_calls, ih, call_tracee_length]

/-- Ops filtered on `tracee_irrelevant` are untouched by a call of
`tracee_relevant`. -/
theorem call_tracee_fixes (ops : List SampleOps)
    (h : ∀ o ∈ ops, o.filter = Tracee.irrelevant) :
    call_tracee Tracee.relevant ops = ops := by
  induction ops with
  | nil => rfl
  | cons o rest ih =>
    have ho := h o (List.mem_cons_self o rest)
    have hrest : ∀ x ∈ rest, x.filter = Tracee.irrelevant :=
      fun x hx => h x (List.mem_cons_of_mem o hx)
    simp only [call_tracee, List.map_cons] at ih ⊢
    rw [ho]
    simp only [reduceCtorEq, if_false]
    rw [ih hrest]

/-- Ops filtered on `tracee_irrelevant` are untouched by the whole timing
loop. -/
theorem run_calls_fixes (n : Nat) (ops : List SampleOps)
    (h : ∀ o ∈ ops, o.filter = Tracee.irrelevant) :
    run_calls n ops = ops := by
  induction n with
  | zero => rfl
  | succ n ih => rw [run_calls, call_tracee_fixes ops h]; exact ih

/-- Every op registered by `ops_alloc_init` is the fully initialised record
with a zero count. -/
theorem mem_alloc_registered (t : Tracee) (f : FtraceFunc) (fl nr : Nat)
    (ok : Bool) (o : SampleOps)
    (ho : o ∈ (ops_alloc_init t f fl nr ok).registered) :
    o = ⟨f, fl, t, 0⟩ := by
  cases ok with
  | false => simp [ops_alloc_init] at ho
  | true =>
    simp only [ops_alloc_init, if_true] at ho
    exact (List.eq_of_mem_replicate ho)

/-- Signed 64-bit wrap-around is the identity on representable values. -/
theorem wrap_s64_eq (x : Int) (hlo : -(2 ^ 63) ≤ x) (hhi : x < 2 ^ 63) :
    wrap_s64 x = x := by
  unfold wrap_s64
  have h1 : (0 : Int) ≤ x + 2 ^ 63 := by linarith
  have h2 : x + 2 ^ 63 < 2 ^ 64 := by
    have h : (2 : Int) ^ 64 = 2 ^ 63 + 2 ^ 63 := by norm_num
    linarith
  rw [Int.emod_eq_of_lt h1 h2]
  ring

/-- The measured period is the end reading minus the start reading whenever
the readings are ordered and the difference is `s64`-representable. -/
theorem period_eq (tstart tstop : Int) (h2 : tstart ≤ tstop)
    (h3 : tstop - tstart < 2 ^ 63) :
    ((period tstart tstop : Nat) : Int) = tstop - tstart := by
  have hd : (0 : Int) ≤ tstop - tstart := by linarith
  have hpow : (0 : Int) ≤ 2 ^ 63 := by positivity
  unfold period u64_of_s64 ktime_to_ns ktime_sub
  rw [wrap_s64_eq (tstop - tstart) (by linarith) h3]
  rw [Int.emod_eq_of_lt hd (by
    have h : (2 : Int) ^ 63 < 2 ^ 64 := by norm_num
    linarith)]
  exact Int.toNat_of_nonneg hd

/-- All ops registered by init (relevant and irrelevant arrays together). -/
def init_registered (p : Params) (e : Env) : List SampleOps :=
  (ftrace_ops_sample_init p e).ops_relevant.registered ++
    (ftrace_ops_sample_init p e).ops_irrelevant.registered

/-- Every op registered by init carries the flags word computed by init. -/
theorem registered_flags_eq (p : Params) (e : Env) (o : SampleOps)
    (ho : o ∈ init_registered p e) : o.flags = init_flags p e := by
  unfold init_registered ftrace_ops_sample_init at ho
  simp only at ho
  rcases List.mem_append.1 ho with h | h
  · rw [mem_alloc_registered _ _ _ _ _ _ h]
  · rw [mem_alloc_registered _ _ _ _ _ _ h]

/-- The SAVE_REGS bit of the computed flags word is set exactly when the
config supports it and the parameter requests it. -/
theorem init_flags_save_regs (p : Params) (e : Env) :
    flag_set (init_flags p e) FTRACE_OPS_FL_SAVE_REGS ↔
      e.cfg_dynamic_ftrace_with_regs = true ∧ p.save_regs = true := by
  cases hc : e.cfg_dynamic_ftrace_with_regs <;> cases hs : p.save_regs <;>
    cases hr : p.assist_recursion <;> cases ha : p.assist_rcu <;>
      simp [init_flags, flag_set, hc, hs, hr, ha, FTRACE_OPS_FL_SAVE_REGS,
        FTRACE_OPS_FL_RECURSION, FTRACE_OPS_FL_RCU] <;> decide

/-- The RECURSION bit of the computed flags word tracks `assist_recursion`. -/
theorem init_flags_recursion (p : Params) (e : Env) :
    flag_set (init_flags p e) FTRACE_OPS_FL_RECURSION ↔
      p.assist_recursion = true := by
  cases hc : e.cfg_dynamic_ftrace_with_regs <;> cases hs : p.save_regs <;>
    cases hr : p.assist_recursion <;> cases ha : p.assist_rcu <;>
      simp [init_flags, flag_set, hc, hs, hr, ha, FTRACE_OPS_FL_SAVE_REGS,
        FTRACE_OPS_FL_RECURSION, FTRACE_OPS_FL_RCU] <;> decide

/-- The RCU bit of the computed flags word tracks `assist_rcu`. -/
theorem init_flags_rcu (p : Params) (e : Env) :
    flag_set (init_flags p e) FTRACE_OPS_FL_RCU ↔ p.assist_rcu = true := by
  cases hc : e.cfg_dynamic_ftrace_with_regs <;> cases hs : p.save_regs <;>
    cases hr : p.assist_recursion <;> cases ha : p.assist_rcu <;>
      simp [init_flags, flag_set, hc, hs, hr, ha, FTRACE_OPS_FL_SAVE_REGS,
        FTRACE_OPS_FL_RECURSION, FTRACE_OPS_FL_RCU] <;> decide

/-! ## Concrete inputs used by witnesses and counterexamples -/

/-- The default parameter values of the C source. -/
def p_default : Params := ⟨100000, 1, 0, false, false, false, false, false⟩

/-- Default parameters except `nr_function_calls = 0`. -/
def p_zero_calls : Params := ⟨0, 1, 0, false, false, false, false, false⟩

/-- A small parameter set with counting and both assist flags enabled. -/
def p_small : Params := ⟨3, 2, 2, false, true, true, true, false⟩

/-- Parameters requesting `save_regs`. -/
def p_save : Params := ⟨10, 1, 1, true, false, false, false, false⟩

/-- Parameters with both assist flags set. -/
def p_assist : Params := ⟨5, 1, 1, false, true, true, false, false⟩

/-- A benign environment: config supports saving registers, both
allocations succeed, clock readings 0 and 5. -/
def env_default : Env := ⟨true, true, true, 0, 5⟩

/-- A benign environment with clock readings 10 and 40. -/
def env_small : Env := ⟨true, true, true, 10, 40⟩

/-- An environment without `CONFIG_DYNAMIC_FTRACE_WITH_REGS`. -/
def env_nodyn : Env := ⟨false, true, true, 0, 7⟩

/-- A benign environment with clock readings 2 and 9. -/
def env_basic : Env := ⟨true, true, true, 2, 9⟩

/-! ## Claims -/

/-- Claim C1: during module initialisation the benchmark calls the no-op
function `tracee_relevant` exactly `nr_function_calls` times, all of them
between the start and end timestamps taken with `ktime_get`, and the
reported period is end minus start in nanoseconds; for every value of
`nr_function_calls` (including 0) the loop performs exactly that many
calls. -/
theorem c1_init_timed_section (p : Params) (e : Env)
    (h2 : e.time_start ≤ e.time_stop)
    (h3 : e.time_stop - e.time_start < 2 ^ 63) :
    (ftrace_ops_sample_init p e).trace =
      Event.stamp e.time_start ::
        (List.replicate p.nr_function_calls (Event.call Tracee.relevant) ++
          [Event.stamp e.time_stop]) ∧
    ((ftrace_ops_sample_init p e).trace).count (Event.call Tracee.relevant) =
      p.nr_function_calls ∧
    (((ftrace_ops_sample_init p e).period : Nat) : Int) =
      e.time_stop - e.time_start := by
  refine ⟨?_, ?_, ?_⟩
  · show timed_trace p.nr_function_calls e.time_start e.time_stop = _
    rw [timed_trace, loop_trace_eq]
  · show (timed_trace p.nr_function_calls e.time_start e.time_stop).count _ = _
    rw [timed_trace, loop_trace_eq]
    simp
  · exact period_eq e.time_start e.time_stop h2 h3

/-- Witness for C1 at concrete parameters. -/
theorem c1_init_timed_section_witness :
    (ftrace_ops_sample_init p_small env_small).trace =
      Event.stamp 10 ::
        (List.replicate 3 (Event.call Tracee.relevant) ++ [Event.stamp 40]) ∧
    ((ftrace_ops_sample_init p_small env_small).trace).count
      (Event.call Tracee.relevant) = 3 ∧
    (((ftrace_ops_sample_init p_small env_small).period : Nat) : Int) = 30 :=
  c1_init_timed_section p_small env_small (by decide) (by decide)

/-- Claim C2, counterexample: with `nr_function_calls = 0` (a permitted
value of the `uint` module parameter) the per-call quotient
`div_u64(period, nr_function_calls)` divides by zero and has no defined
value, so the claimed well-definedness fails. -/
theorem c2_per_call_zero_calls_cex :
    (ftrace_ops_sample_init p_zero_calls env_default).per_call = none := by rfl

/-- Claim C2 (amended): the reported per-call latency equals the measured
period divided by `nr_function_calls` with unsigned 64-bit division, well
defined for every nonzero value of `nr_function_calls`; at
`nr_function_calls = 0` the division is a division by zero and has no
defined result. -/
theorem c2_per_call_eq_div (p : Params) (e : Env)
    (h : p.nr_function_calls ≠ 0) :
    (ftrace_ops_sample_init p e).per_call =
      some ((ftrace_ops_sample_init p e).period / p.nr_function_calls) := by
  show div_u64 (period e.time_start e.time_stop) p.nr_function_calls =
    some (period e.time_start e.time_stop / p.nr_function_calls)
  rw [div_u64, if_neg h]

/-- Witness for the amended C2 at the default parameters. -/
theorem c2_per_call_eq_div_witness :
    (ftrace_ops_sample_init p_default env_default).per_call =
      some ((ftrace_ops_sample_init p_default env_default).period /
        p_default.nr_function_calls) :=
  c2_per_call_eq_div p_default env_default (by decide)

/-- Claim C3: for every value of the module parameters, initialisation
registers exactly `nr_ops_relevant` ops filtered on `tracee_relevant` and
exactly `nr_ops_irrelevant` ops filtered on `tracee_irrelevant`, each op's
callback being `ops_func_count` when `check_count` is set and
`ops_func_nop` otherwise, and each op carrying the flags word computed from
the parameters. -/
theorem c3_init_registration (p : Params) (e : Env)
    (h1 : e.alloc_relevant_ok = true) (h2 : e.alloc_irrelevant_ok = true) :
    (ftrace_ops_sample_init p e).ops_relevant.registered =
      List.replicate p.nr_ops_relevant
        ⟨if p.check_count then FtraceFunc.ops_func_count else FtraceFunc.ops_func_nop,
          init_flags p e, Tracee.relevant, 0⟩ ∧
    (ftrace_ops_sample_init p e).ops_irrelevant.registered =
      List.replicate p.nr_ops_irrelevant
        ⟨if p.check_count then FtraceFunc.ops_func_count else FtraceFunc.ops_func_nop,
          init_flags p e, Tracee.irrelevant, 0⟩ ∧
    (ftrace_ops_sample_init p e).ops_relevant.registered.length =
      p.nr_ops_relevant ∧
    (ftrace_ops_sample_init p e).ops_irrelevant.registered.length =
      p.nr_ops_irrelevant := by
  have hr : (ftrace_ops_sample_init p e).ops_relevant.registered =
      List.replicate p.nr_ops_relevant
        ⟨if p.check_count then FtraceFunc.ops_func_count else FtraceFunc.ops_func_nop,
          init_flags p e, Tracee.relevant, 0⟩ := by
    show (ops_relevant_init p e).registered = _
    rw [ops_relevant_init, ops_alloc_init, h1, if_pos rfl, tracer_relevant]
  have hi : (ftrace_ops_sample_init p e).ops_irrelevant.registered =
      List.replicate p.nr_ops_irrelevant
        ⟨if p.check_count then FtraceFunc.ops_func_count else FtraceFunc.ops_func_nop,
          init_flags p e, Tracee.irrelevant, 0⟩ := by
    show (ops_irrelevant_init p e).registered = _
    rw [ops_irrelevant_init, ops_alloc_init, h2, if_pos rfl, tracer_irrelevant]
  refine ⟨hr, hi, ?_, ?_⟩
  · rw [hr, List.length_replicate]
  · rw [hi, List.length_replicate]

/-- Witness for C3 at concrete parameters. -/
theorem c3_init_registration_witness :
    (ftrace_ops_sample_init p_small env_small).ops_relevant.registered =
      List.replicate p_small.nr_ops_relevant
        ⟨if p_small.check_count then FtraceFunc.ops_func_count
            else FtraceFunc.ops_func_nop,
          init_flags p_small env_small, Tracee.relevant, 0⟩ ∧
    (ftrace_ops_sample_init p_small env_small).ops_irrelevant.registered =
      List.replicate p_small.nr_ops_irrelevant
        ⟨if p_small.check_count then FtraceFunc.ops_func_count
            else FtraceFunc.ops_func_nop,
          init_flags p_small env_small, Tracee.irrelevant, 0⟩ ∧
    (ftrace_ops_sample_init p_small env_small).ops_relevant.registered.length =
      p_small.nr_ops_relevant ∧
    (ftrace_ops_sample_init p_small env_small).ops_irrelevant.registered.length =
      p_small.nr_ops_irrelevant :=
  c3_init_registration p_small env_small rfl rfl

/-- The op record registered on the relevant side when `save_regs` is
requested without config support. -/
def op_nodyn : SampleOps :=
  ⟨FtraceFunc.ops_func_nop, init_flags p_save env_nodyn, Tracee.relevant, 0⟩

/-- Claim C4: if the kernel is built without
`CONFIG_DYNAMIC_FTRACE_WITH_REGS` and `save_regs` is requested, `save_regs`
is forced to false and `FTRACE_OPS_FL_SAVE_REGS` is not set in the
registered ops' flags; otherwise `FTRACE_OPS_FL_SAVE_REGS` is set in the
flags if and only if `save_regs` is true. -/
theorem c4_save_regs_policy (p : Params) (e : Env) :
    (e.cfg_dynamic_ftrace_with_regs = false ∧ p.save_regs = true →
      save_regs_final p e = false ∧
        ∀ o ∈ init_registered p e,
          ¬ flag_set o.flags FTRACE_OPS_FL_SAVE_REGS) ∧
    (e.cfg_dynamic_ftrace_with_regs = true ∨ p.save_regs = false →
      ∀ o ∈ init_registered p e,
        (flag_set o.flags FTRACE_OPS_FL_SAVE_REGS ↔ p.save_regs = true)) := by
  constructor
  · rintro ⟨hc, hs⟩
    refine ⟨by simp [save_regs_final, hc, hs], ?_⟩
    intro o ho
    rw [registered_flags_eq p e o ho, init_flags_save_regs]
    simp [hc]
  · intro h o ho
    rw [registered_flags_eq p e o ho, init_flags_save_regs]
    rcases h with h | h
    · simp [h]
    · simp [h]

/-- Witness for C4: without config support, a requested `save_regs` is
forced off and the flag is absent from a concretely registered op. -/
theorem c4_save_regs_policy_witness :
    save_regs_final p_save env_nodyn = false ∧
    ¬ flag_set op_nodyn.flags FTRACE_OPS_FL_SAVE_REGS :=
  ⟨((c4_save_regs_policy p_save env_nodyn).1 ⟨rfl, rfl⟩).1,
    ((c4_save_regs_policy p_save env_nodyn).1 ⟨rfl, rfl⟩).2 op_nodyn (by decide)⟩

/-- An op registered on the irrelevant side with both assist flags set. -/
def op_assist : SampleOps :=
  ⟨FtraceFunc.ops_func_nop, init_flags p_assist env_basic, Tracee.irrelevant, 0⟩

/-- Claim C5: in the flags word applied to every registered op (relevant and
irrelevant alike), `FTRACE_OPS_FL_RECURSION` is set if and only if
`assist_recursion` is true, and `FTRACE_OPS_FL_RCU` is set if and only if
`assist_rcu` is true. -/
theorem c5_assist_flags (p : Params) (e : Env) :
    (flag_set (init_flags p e) FTRACE_OPS_FL_RECURSION ↔
      p.assist_recursion = true) ∧
    (flag_set (init_flags p e) FTRACE_OPS_FL_RCU ↔ p.assist_rcu = true) ∧
    ∀ o ∈ init_registered p e, o.flags = init_flags p e :=
  ⟨init_flags_recursion p e, init_flags_rcu p e,
    fun o ho => registered_flags_eq p e o ho⟩

/-- Witness for C5 at concrete parameters, with the membership part
instantiated at a concretely registered op. -/
theorem c5_assist_flags_witness :
    (flag_set (init_flags p_assist env_basic) FTRACE_OPS_FL_RECURSION ↔
      p_assist.assist_recursion = true) ∧
    (flag_set (init_flags p_assist env_basic) FTRACE_OPS_FL_RCU ↔
      p_assist.assist_rcu = true) ∧
    op_assist.flags = init_flags p_assist env_basic :=
  ⟨(c5_assist_flags p_assist env_basic).1,
    (c5_assist_flags p_assist env_basic).2.1,
    (c5_assist_flags p_assist env_basic).2.2 op_assist (by decide)⟩

/-- The timing loop leaves the irrelevant ops array unchanged. -/
theorem irrelevant_post_eq (p : Params) (e : Env) :
    ops_irrelevant_post p e = (ops_irrelevant_init p e).ret := by
  unfold ops_irrelevant_post
  cases ha : e.alloc_irrelevant_ok with
  | false => simp [ops_irrelevant_init, ops_alloc_init, ha]
  | true =>
    simp only [ops_irrelevant_init, ops_alloc_init, ha, if_pos, Option.map_some]
    exact congrArg some (run_calls_fixes _ _
      fun x hx => by rw [List.eq_of_mem_replicate hx])

/-- Every op in the irrelevant array still has a zero count after the
timing loop. -/
theorem irrelevant_post_counts (p : Params) (e : Env) (o : SampleOps)
    (ho : o ∈ (ops_irrelevant_post p e).getD []) : o.count = 0 := by
  rw [irrelevant_post_eq] at ho
  cases ha : e.alloc_irrelevant_ok with
  | false => simp [ops_irrelevant_init, ops_alloc_init, ha] at ho
  | true =>
    simp only [ops_irrelevant_init, ops_alloc_init, ha, if_pos,
      Option.getD_some] at ho
    rw [List.eq_of_mem_replicate ho]

/-- A list whose elements all map to `none` filters to the empty list. -/
theorem filterMap_const_none {α β : Type} (l : List α) :
    l.filterMap (fun _ => (none : Option β)) = [] := by
  induction l with
  | nil => rfl
  | cons a rest ih => simp [List.filterMap_cons, ih]

/-- A list whose elements all map to `some c` filters to a replicate. -/
theorem filterMap_const_some {α β : Type} (l : List α) (c : β) :
    l.filterMap (fun _ => some c) = List.replicate l.length c := by
  induction l with
  | nil => rfl
  | cons a rest ih => simp [List.filterMap_cons, ih, List.replicate_succ]

/-- The check of the irrelevant array against an expected count of 0 emits
no warnings. -/
theorem irrelevant_check_silent (p : Params) (e : Env) :
    ops_check p.check_count (ops_irrelevant_post p e) p.nr_ops_irrelevant 0
      = [] := by
  rw [irrelevant_post_eq]
  cases ha : e.alloc_irrelevant_ok with
  | false => simp [ops_irrelevant_init, ops_alloc_init, ha, ops_check]
  | true =>
    simp only [ops_irrelevant_init, ops_alloc_init, ha, if_pos]
    cases hcc : p.check_count with
    | false => simp [ops_check]
    | true =>
      simp only [ops_check, if_pos]
      cases hn : p.nr_ops_irrelevant with
      | zero => rfl
      | succ m =>
        rw [List.replicate_succ]
        exact filterMap_const_none _

/-- Claim C6: the irrelevant ops are attached only to `tracee_irrelevant`,
which the benchmark never calls; every irrelevant op's count remains 0
throughout the run, and the post-loop check of the irrelevant ops against
an expected count of 0 emits no warnings. -/
theorem c6_irrelevant_untouched (p : Params) (e : Env) :
    ((ftrace_ops_sample_init p e).trace).count (Event.call Tracee.irrelevant)
      = 0 ∧
    (∀ o ∈ (ftrace_ops_sample_init p e).ops_irrelevant.registered,
      o.filter = Tracee.irrelevant) ∧
    (ftrace_ops_sample_init p e).ops_irrelevant_after =
      (ftrace_ops_sample_init p e).ops_irrelevant.ret ∧
    (∀ o ∈ ((ftrace_ops_sample_init p e).ops_irrelevant_after).getD [],
      o.count = 0) ∧
    (ftrace_ops_sample_init p e).warnings_irrelevant = [] := by
  refine ⟨?_, ?_, irrelevant_post_eq p e,
    fun o ho => irrelevant_post_counts p e o ho, irrelevant_check_silent p e⟩
  · show (timed_trace p.nr_function_calls e.time_start e.time_stop).count _ = 0
    rw [timed_trace, loop_trace_eq]
    simp [List.count_replicate]
  · intro o ho
    rw [mem_alloc_registered _ _ _ _ _ _ ho]

/-- The op record found in the irrelevant array of the small concrete run. -/
def op_irr_small : SampleOps :=
  ⟨FtraceFunc.ops_func_count, init_flags p_small env_small, Tracee.irrelevant, 0⟩

/-- Witness for C6 at concrete parameters, with the membership parts
instantiated at a concrete op of the irrelevant array. -/
theorem c6_irrelevant_untouched_witness :
    ((ftrace_ops_sample_init p_small env_small).trace).count
      (Event.call Tracee.irrelevant) = 0 ∧
    op_irr_small.filter = Tracee.irrelevant ∧
    (ftrace_ops_sample_init p_small env_small).ops_irrelevant_after =
      (ftrace_ops_sample_init p_small env_small).ops_irrelevant.ret ∧
    op_irr_small.count = 0 ∧
    (ftrace_ops_sample_init p_small env_small).warnings_irrelevant = [] :=
  ⟨(c6_irrelevant_untouched p_small env_small).1,
    (c6_irrelevant_untouched p_small env_small).2.1 op_irr_small (by decide),
    (c6_irrelevant_untouched p_small env_small).2.2.1,
    (c6_irrelevant_untouched p_small env_small).2.2.2.1 op_irr_small (by decide),
    (c6_irrelevant_untouched p_small env_small).2.2.2.2⟩

/-- A call of a tracee dispatches to no-op callbacks only, when every
registered op's callback is `ops_func_nop`. -/
theorem call_tracee_nop (t : Tracee) (ops : List SampleOps)
    (h : ∀ o ∈ ops, o.func = FtraceFunc.ops_func_nop) :
    call_tracee t ops = ops := by
  induction ops with
  | nil => rfl
  | cons o rest ih =>
    have ho := h o (List.mem_cons_self o rest)
    have hrest : ∀ x ∈ rest, x.func = FtraceFunc.ops_func_nop :=
      fun x hx => h x (List.mem_cons_of_mem o hx)
    simp only [call_tracee, List.map_cons] at ih ⊢
    rw [ih hrest]
    simp only [List.cons.injEq, and_true]
    rw [ho]
    by_cases hf : o.filter = t
    · rw [if_pos hf]
      rfl
    · rw [if_neg hf]

/-- A module state for the C7 witness. -/
def state_ex : ModuleState := ⟨p_default, none, none⟩

/-- A no-op-callback op for the C7 witness. -/
def op_nop_ex : SampleOps := ⟨FtraceFunc.ops_func_nop, 0, Tracee.relevant, 7⟩

/-- A list of ops all carrying the no-op callback for the C7 witness. -/
def ops_nop_ex : List SampleOps :=
  [⟨FtraceFunc.ops_func_nop, 0, Tracee.relevant, 7⟩,
    ⟨FtraceFunc.ops_func_nop, 4, Tracee.irrelevant, 1⟩]

/-- Claim C7: the traced function `tracee_relevant` and the default tracer
callback `ops_func_nop` are no-ops: calling either of them any number of
times leaves the module's state (the ops arrays, their count fields, and
the parameters) unchanged. -/
theorem c7_noop_bodies (n : Nat) (s : ModuleState) (ops : List SampleOps) :
    iterate_calls n tracee_relevant_body s = s ∧
    (∀ o : SampleOps, ftrace_func_apply FtraceFunc.ops_func_nop o = o) ∧
    ((∀ o ∈ ops, o.func = FtraceFunc.ops_func_nop) → run_calls n ops = ops) := by
  refine ⟨?_, fun o => rfl, ?_⟩
  · induction n with
    | zero => rfl
    | succ n ih => exact ih
  · intro h
    induction n with
    | zero => rfl
    | succ n ih => rw [run_calls, call_tracee_nop Tracee.relevant ops h]; exact ih

/-- Witness for C7: five calls at concrete state and concrete no-op ops. -/
theorem c7_noop_bodies_witness :
    iterate_calls 5 tracee_relevant_body state_ex = state_ex ∧
    ftrace_func_apply FtraceFunc.ops_func_nop op_nop_ex = op_nop_ex ∧
    run_calls 5 ops_nop_ex = ops_nop_ex :=
  ⟨(c7_noop_bodies 5 state_ex ops_nop_ex).1,
    (c7_noop_bodies 5 state_ex ops_nop_ex).2.1 op_nop_ex,
    (c7_noop_bodies 5 state_ex ops_nop_ex).2.2 (by decide)⟩

/-- After `ops_destroy` runs over a full array produced by allocation and
the timing loop, nothing of that array remains registered. -/
theorem remaining_post_nil (t : Tracee) (f : FtraceFunc) (fl nr n : Nat)
    (ok : Bool) :
    remaining_after_destroy (((ops_alloc_init t f fl nr ok).ret).map
      (run_calls n)) nr = [] := by
  cases ok with
  | false => rfl
  | true =>
    simp only [ops_alloc_init, if_pos, Option.map_some, remaining_after_destroy]
    apply List.drop_eq_nil_of_le
    rw [run_calls_length, List.length_replicate]

/-- Claim C8: after the benchmark completes, init returns 0 with all ops
left registered if and only if `persist` is true; when `persist` is false
it destroys both arrays and returns `-EINVAL`, leaving nothing
registered. -/
theorem c8_persist_policy (p : Params) (e : Env) :
    ((ftrace_ops_sample_init p e).retval = 0 ↔ p.persist = true) ∧
    (p.persist = false →
      (ftrace_ops_sample_init p e).retval = -EINVAL ∧
      (ftrace_ops_sample_init p e).registered_after = []) ∧
    (p.persist = true →
      (ftrace_ops_sample_init p e).retval = 0 ∧
      (ftrace_ops_sample_init p e).registered_after =
        ((ftrace_ops_sample_init p e).ops_relevant_after).getD [] ++
          ((ftrace_ops_sample_init p e).ops_irrelevant_after).getD []) := by
  have hrel := remaining_post_nil Tracee.relevant (tracer_relevant p)
    (init_flags p e) p.nr_ops_relevant p.nr_function_calls e.alloc_relevant_ok
  have hirr := remaining_post_nil Tracee.irrelevant (tracer_irrelevant p)
    (init_flags p e) p.nr_ops_irrelevant p.nr_function_calls
    e.alloc_irrelevant_ok
  have hret : (ftrace_ops_sample_init p e).retval =
      (if p.persist then 0 else -EINVAL) := rfl
  have hreg : (ftrace_ops_sample_init p e).registered_after =
      (if p.persist then
        (ops_relevant_post p e).getD [] ++ (ops_irrelevant_post p e).getD []
      else
        remaining_after_destroy (ops_relevant_post p e) p.nr_ops_relevant ++
          remaining_after_destroy (ops_irrelevant_post p e)
            p.nr_ops_irrelevant) := rfl
  cases hp : p.persist with
  | false =>
    rw [hp] at hret hreg
    rw [if_neg (by simp)] at hret hreg
    refine ⟨by rw [hret]; constructor <;> intro hx <;> simp [EINVAL] at hx, ?_, ?_⟩
    · intro _
      refine ⟨hret, ?_⟩
      rw [hreg]
      show remaining_after_destroy (ops_relevant_post p e) p.nr_ops_relevant ++
        remaining_after_destroy (ops_irrelevant_post p e) p.nr_ops_irrelevant
          = []
      rw [show remaining_after_destroy (ops_relevant_post p e)
            p.nr_ops_relevant = [] from hrel,
          show remaining_after_destroy (ops_irrelevant_post p e)
            p.nr_ops_irrelevant = [] from hirr]
      rfl
    · intro hx
      simp at hx
  | true =>
    rw [hp] at hret hreg
    rw [if_pos rfl] at hret hreg
    refine ⟨by rw [hret]; simp, ?_, fun _ => ⟨hret, hreg⟩⟩
    intro hx
    simp at hx

/-- Witness for C8 at concrete non-persist parameters. -/
theorem c8_persist_policy_witness :
    (ftrace_ops_sample_init p_small env_small).retval = -EINVAL ∧
    (ftrace_ops_sample_init p_small env_small).registered_after = [] :=
  (c8_persist_policy p_small env_small).2.1 rfl

/-- Claim C9: for every ops array with `nr >= 1` and `check_count` enabled,
the outcome of `ops_check` depends only on the count of the first element:
it emits `nr` identical warnings when `ops[0].count` differs from
`expected_count` and emits nothing when it equals `expected_count`,
regardless of the counts of elements at indices 1 through `nr - 1`. -/
theorem c9_ops_check_head_only (l : List SampleOps) (nr expected : Nat)
    (_hnr : 1 ≤ nr) (_hlen : l.length = nr) (o : SampleOps)
    (hhead : l.head? = some o) :
    ops_check true (some l) nr expected =
      if o.count = expected then []
      else List.replicate nr (o.count, expected) := by
  have hform : ops_check true (some l) nr expected =
      (List.range nr).filterMap fun _ =>
        match l.head? with
        | none => none
        | some o =>
          if o.count = expected then none else some (o.count, expected) := rfl
  rw [hform, hhead]
  by_cases hc : o.count = expected
  · rw [if_pos hc]
    have heach : (fun (_ : Nat) =>
        match some o with
        | none => none
        | some o =>
          if o.count = expected then none
          else some (o.count, expected)) = fun _ => (none : Option (Nat × Nat)) := by
      funext x
      simp [hc]
    rw [heach, filterMap_const_none]
  · rw [if_neg hc]
    have heach : (fun (_ : Nat) =>
        match some o with
        | none => none
        | some o =>
          if o.count = expected then none
          else some (o.count, expected)) = fun _ => some (o.count, expected) := by
      funext x
      simp [hc]
    rw [heach, filterMap_const_some, List.length_range]

/-- A two-element ops array whose first count is 5 and second is 99, for
the C9 witness. -/
def l_check : List SampleOps :=
  [⟨FtraceFunc.ops_func_count, 0, Tracee.relevant, 5⟩,
    ⟨FtraceFunc.ops_func_count, 0, Tracee.relevant, 99⟩]

/-- The head element of `l_check`. -/
def op_check_head : SampleOps := ⟨FtraceFunc.ops_func_count, 0, Tracee.relevant, 5⟩

/-- Witness for C9: a two-element array checked against expected count 7
yields two identical warnings carrying the first element's count. -/
theorem c9_ops_check_head_only_witness :
    ops_check true (some l_check) 2 7 =
      if op_check_head.count = 7 then []
      else List.replicate 2 (op_check_head.count, 7) :=
  c9_ops_check_head_only l_check 2 7 (by decide) (by decide) op_check_head
    (by decide)

/-- Claim C10: if `ops_alloc_init` fails to allocate, it returns NULL
without having registered any ftrace_ops or set any filter, and
`ops_destroy` applied to a NULL pointer performs no action; teardown
unregisters exactly what allocation registered, for every combination of
successful and failed allocations. -/
theorem c10_alloc_fail_destroy_null (t : Tracee) (f : FtraceFunc)
    (fl nr : Nat) (ok : Bool) :
    (ops_alloc_init t f fl nr false).ret = none ∧
    (ops_alloc_init t f fl nr false).registered = [] ∧
    ops_destroy none nr = [] ∧
    ops_destroy (ops_alloc_init t f fl nr ok).ret nr =
      (ops_alloc_init t f fl nr ok).registered := by
  refine ⟨rfl, rfl, rfl, ?_⟩
  cases ok with
  | false => rfl
  | true =>
    show (List.replicate nr (⟨f, fl, t, 0⟩ : SampleOps)).take nr =
      List.replicate nr ⟨f, fl, t, 0⟩
    rw [List.take_replicate, Nat.min_self]

end FtraceOpsSample
